import Mathlib

/-!
Shallow embedding of the CrestaStream mock server (the Express application
embedded in `src/mock-server/README.md`): the in-memory conversation store,
the session-token registry, the listing/filter/pagination pipeline, the create
and update handlers, logout/refresh, and the metrics aggregator. JavaScript
numeric oddities are made explicit: `parseInt` returning NaN is `Option.none`,
`x || d` defaulting on falsy values is modelled field by field, `Array.slice`
keeps its negative-index-from-the-end semantics, and `Math.round`/`Math.ceil`
of an exact rational are expressed with integer floor division.
-/

namespace CrestaStream

/-- Models JavaScript `parseInt` (radix 10) on its decimal input domain:
leading whitespace is skipped, an optional sign is read, then the longest
prefix of decimal digits; `none` models the NaN result when no digit is
found. (The automatic radix-16 detection on `0x` prefixes is outside the
inputs the server's query strings use.) -/
def jsParseInt (s : String) : Option Int :=
  let cs := s.data.dropWhile (fun c => c = ' ' || c = '\t' || c = '\n' || c = '\r')
  let signRest : Int × List Char :=
    match cs with
    | '-' :: t => (-1, t)
    | '+' :: t => (1, t)
    | t => (1, t)
  let ds := signRest.2.takeWhile Char.isDigit
  if ds.isEmpty then none
  else some (signRest.1 * (ds.foldl (fun a c => a * 10 + (c.toNat - 48)) 0 : Nat))

/-- Models the JavaScript idiom `parseInt(x) || d`: the default `d` is used
when the parse produced NaN (`none`) or the falsy number `0`. -/
def jsOrInt (v : Option Int) (d : Int) : Int :=
  match v with
  | some n => if n = 0 then d else n
  | none => d

/-- Models the JavaScript idiom `x || d` on an optional string field: the
default is used when the field is absent (`undefined`) or the falsy empty
string. -/
def jsOrString (v : Option String) (d : String) : String :=
  match v with
  | some s => if s = "" then d else s
  | none => d

/-- Models JavaScript `Array.prototype.slice(s, e)`: a negative index counts
from the end of the array (clamped to 0), a nonnegative index is clamped to
the length. -/
def jsSlice (s e : Int) (l : List α) : List α :=
  let len : Int := l.length
  let rs : Int := if s < 0 then max (len + s) 0 else min s len
  let re : Int := if e < 0 then max (len + e) 0 else min e len
  (l.drop rs.toNat).take (re - rs).toNat

/-- Models `Math.ceil(n / d)` for integers with `d ≠ 0` (exact rational
division then ceiling), via `⌈n/d⌉ = -⌊-n/d⌋` with floor division. The
server only reaches this with a nonzero `limit`, because `parseInt || 10`
never yields 0. -/
def jsCeilDiv (n d : Int) : Int := -((-n).fdiv d)

/-- Models `Math.round(a / b)` for integers with `b > 0` (exact rational
division then round-half-toward-positive-infinity):
`round(a/b) = ⌊a/b + 1/2⌋ = ⌊(2a+b)/(2b)⌋`. -/
def jsRoundDiv (a b : Int) : Int := (2 * a + b).fdiv (2 * b)

/-- Models JavaScript `String.prototype.replace(pat, rep)` with a string
pattern on a character list: only the first occurrence is replaced. -/
def listReplaceFirst (pat rep : List Char) : List Char → List Char
  | [] => if pat.isPrefixOf ([] : List Char) then rep else []
  | c :: cs =>
      if pat.isPrefixOf (c :: cs) then rep ++ (c :: cs).drop pat.length
      else c :: listReplaceFirst pat rep cs

/-- `String.replace` with first-occurrence-only semantics, as in JavaScript. -/
def jsReplaceFirst (pat rep s : String) : String :=
  ⟨listReplaceFirst pat.data rep.data s.data⟩

/-- Models `String.prototype.includes` (substring test) on character lists. -/
def listIncludes : (pat l : List Char) → Bool
  | pat, [] => pat.isEmpty
  | pat, c :: cs => pat.isPrefixOf (c :: cs) || listIncludes pat cs

/-- JavaScript `a.includes(b)` on strings. -/
def jsIncludes (s pat : String) : Bool := listIncludes pat.data s.data

/-- Models `String.prototype.toLowerCase` on the ASCII alphabet the server's
data uses for searchable comparisons. -/
def jsToLower (s : String) : String := s.toLower

/-! ## Data model: conversations -/

/-- One entry of a conversation's `messages` array. -/
structure Message where
  role : String
  text : String
  timestamp : Option String
deriving Repr, DecidableEq

/-- A conversation record of the in-memory database. `agentId` is nullable
(`none` models JavaScript `null`). -/
structure Conversation where
  id : String
  title : String
  customerName : String
  agentName : String
  agentId : Option String
  sentiment : String
  status : String
  aiScore : Int
  duration : Int
  createdAt : String
  messages : List Message
deriving Repr, DecidableEq

/-- First seeded record of the in-memory database. -/
def conv001 : Conversation :=
  { id := "conv-001", title := "Müşteri Şikayeti - Kargo Gecikmesi",
    customerName := "Ahmet Yılmaz", agentName := "Ayşe Demir",
    agentId := some "agent-001", sentiment := "negative", status := "resolved",
    aiScore := 42, duration := 325, createdAt := "2024-01-15T09:30:00Z",
    messages := [⟨"customer", "Siparişim 5 gündür gelmedi!", none⟩,
                 ⟨"agent", "Özür dilerim, hemen kontrol ediyorum.", none⟩] }

/-- Second seeded record. -/
def conv002 : Conversation :=
  { id := "conv-002", title := "Ürün Bilgisi Talebi",
    customerName := "Fatma Kaya", agentName := "Mehmet Öz",
    agentId := some "agent-002", sentiment := "positive", status := "completed",
    aiScore := 89, duration := 180, createdAt := "2024-01-15T10:15:00Z",
    messages := [⟨"customer", "Bu ürünün garantisi var mı?", none⟩,
                 ⟨"agent", "2 yıl garantisi bulunmaktadır.", none⟩] }

/-- Third seeded record. -/
def conv003 : Conversation :=
  { id := "conv-003", title := "İade Talebi",
    customerName := "Ali Veli", agentName := "Ayşe Demir",
    agentId := some "agent-001", sentiment := "neutral", status := "pending",
    aiScore := 65, duration := 420, createdAt := "2024-01-15T11:00:00Z",
    messages := [⟨"customer", "Ürünü iade etmek istiyorum.", none⟩,
                 ⟨"agent", "İade talebinizi oluşturuyorum.", none⟩] }

/-- Fourth seeded record. -/
def conv004 : Conversation :=
  { id := "conv-004", title := "Teknik Destek",
    customerName := "Zeynep Aksoy", agentName := "Can Yıldız",
    agentId := some "agent-003", sentiment := "positive", status := "completed",
    aiScore := 95, duration := 240, createdAt := "2024-01-15T14:30:00Z",
    messages := [⟨"customer", "Cihazım açılmıyor.", none⟩,
                 ⟨"agent", "Reset tuşuna 10 saniye basılı tutun.", none⟩] }

/-- Fifth seeded record. -/
def conv005 : Conversation :=
  { id := "conv-005", title := "Fatura Sorunu",
    customerName := "Murat Çelik", agentName := "Mehmet Öz",
    agentId := some "agent-002", sentiment := "negative", status := "escalated",
    aiScore := 28, duration := 600, createdAt := "2024-01-15T16:00:00Z",
    messages := [⟨"customer", "Faturamda yanlış tutar var!", none⟩,
                 ⟨"agent", "Durumu üst birime aktarıyorum.", none⟩] }

/-- The five seeded records of the in-memory database, in source order. -/
def initialConversations : List Conversation :=
  [conv001, conv002, conv003, conv004, conv005]

/-! ## GET /api/conversations: filtering and pagination

Each filter block of the handler has the shape
`if (req.query.X) { result = result.filter(pred) }`; the guard is JavaScript
truthiness of the query parameter (present and non-empty). We factor every
block as `optFilter` of an optional predicate: the predicate is `some` exactly
when the guard fires. -/

/-- The query-string parameters of `GET /api/conversations` (each `none`
models an absent parameter). -/
structure ListQuery where
  sentiment : Option String := none
  status : Option String := none
  agentId : Option String := none
  search : Option String := none
  minScore : Option String := none
  maxScore : Option String := none
  page : Option String := none
  limit : Option String := none

/-- Apply a filter stage whose guard may not have fired. -/
def optFilter (po : Option (α → Bool)) (l : List α) : List α :=
  match po with
  | some p => l.filter p
  | none => l

/-- `if (req.query.sentiment) result = result.filter(c => c.sentiment === q)`. -/
def sentimentPredOf (q : Option String) : Option (Conversation → Bool) :=
  match q with
  | some s => if s = "" then none else some (fun c => c.sentiment == s)
  | none => none

/-- `if (req.query.status) result = result.filter(c => c.status === q)`. -/
def statusPredOf (q : Option String) : Option (Conversation → Bool) :=
  match q with
  | some s => if s = "" then none else some (fun c => c.status == s)
  | none => none

/-- `if (req.query.agentId) result = result.filter(c => c.agentId === q)`. -/
def agentIdPredOf (q : Option String) : Option (Conversation → Bool) :=
  match q with
  | some s => if s = "" then none else some (fun c => c.agentId == some s)
  | none => none

/-- `if (req.query.search)`: case-insensitive substring match against
`title` or `customerName`. -/
def searchPredOf (q : Option String) : Option (Conversation → Bool) :=
  match q with
  | some s =>
      if s = "" then none
      else some (fun c =>
        jsIncludes (jsToLower c.title) (jsToLower s) ||
        jsIncludes (jsToLower c.customerName) (jsToLower s))
  | none => none

/-- `if (req.query.minScore) result = result.filter(c => c.aiScore >= parseInt(q))`.
When `parseInt` yields NaN the comparison `aiScore >= NaN` is false for every
record, so the stage's predicate rejects everything. -/
def minScorePredOf (q : Option String) : Option (Conversation → Bool) :=
  match q with
  | some s =>
      if s = "" then none
      else some (fun c =>
        match jsParseInt s with
        | some n => n ≤ c.aiScore
        | none => false)
  | none => none

/-- `if (req.query.maxScore) result = result.filter(c => c.aiScore <= parseInt(q))`;
the NaN comparison again rejects every record. -/
def maxScorePredOf (q : Option String) : Option (Conversation → Bool) :=
  match q with
  | some s =>
      if s = "" then none
      else some (fun c =>
        match jsParseInt s with
        | some n => c.aiScore ≤ n
        | none => false)
  | none => none

/-- The six filter blocks of the handler, applied in source order. -/
def applyFilters (q : ListQuery) (l : List Conversation) : List Conversation :=
  optFilter (maxScorePredOf q.maxScore)
    (optFilter (minScorePredOf q.minScore)
      (optFilter (searchPredOf q.search)
        (optFilter (agentIdPredOf q.agentId)
          (optFilter (statusPredOf q.status)
            (optFilter (sentimentPredOf q.sentiment) l)))))

/-- `const page = parseInt(req.query.page) || 1`. -/
def pageOf (q : ListQuery) : Int := jsOrInt (q.page.bind jsParseInt) 1

/-- `const limit = parseInt(req.query.limit) || 10`. -/
def limitOf (q : ListQuery) : Int := jsOrInt (q.limit.bind jsParseInt) 10

/-- The `pagination` object of the listing response. -/
structure Pagination where
  total : Nat
  page : Int
  limit : Int
  totalPages : Int
deriving Repr, DecidableEq

/-- The body of the listing response. -/
structure ListResult where
  data : List Conversation
  pagination : Pagination
deriving Repr, DecidableEq

/-- The `GET /api/conversations` handler: filter, then
`result.slice((page-1)*limit, (page-1)*limit + limit)` with the
pre-pagination count in `pagination.total` and
`totalPages = Math.ceil(result.length / limit)`. -/
def listConversations (q : ListQuery) (store : List Conversation) : ListResult :=
  let result := applyFilters q store
  let page := pageOf q
  let limit := limitOf q
  let startIndex := (page - 1) * limit
  let endIndex := startIndex + limit
  { data := jsSlice startIndex endIndex result,
    pagination :=
      { total := result.length, page := page, limit := limit,
        totalPages := jsCeilDiv result.length limit } }

/-! ## GET /api/metrics -/

/-- The metrics body. The three averaged fields are `Option Int`: `none`
models the NaN that `Math.round(x / 0)` produces in JavaScript (serialized
as `null`), `some n` a finite rounded value. -/
structure Metrics where
  totalConversations : Nat
  positiveCount : Nat
  negativeCount : Nat
  neutralCount : Nat
  averageAiScore : Option Int
  resolutionRate : Option Int
  averageHandleTime : Option Int
deriving Repr, DecidableEq

/-- `calculateMetrics()`: counts by sentiment, the rounded mean `aiScore`,
the rounded percentage of resolved-or-completed records, and the rounded
mean `duration`. Each division is by `total`, with no emptiness guard:
`total = 0` makes all three quotients NaN (`none`). -/
def calculateMetrics (conversations : List Conversation) : Metrics :=
  let total := conversations.length
  let positive := (conversations.filter (fun c => c.sentiment == "positive")).length
  let negative := (conversations.filter (fun c => c.sentiment == "negative")).length
  let neutral := (conversations.filter (fun c => c.sentiment == "neutral")).length
  let scoreSum : Int := conversations.foldl (fun sum c => sum + c.aiScore) 0
  let resolved := (conversations.filter
    (fun c => c.status == "resolved" || c.status == "completed")).length
  let durationSum : Int := conversations.foldl (fun sum c => sum + c.duration) 0
  { totalConversations := total,
    positiveCount := positive,
    negativeCount := negative,
    neutralCount := neutral,
    averageAiScore := if total = 0 then none else some (jsRoundDiv scoreSum total),
    resolutionRate := if total = 0 then none else some (jsRoundDiv (100 * resolved) total),
    averageHandleTime := if total = 0 then none else some (jsRoundDiv durationSum total) }

/-! ## POST /api/conversations -/

/-- The JSON body of a create request: every field optional (`none` models an
absent key). `id` and `createdAt` may be supplied by the client; the handler
never reads them. -/
structure CreateBody where
  id : Option String := none
  title : Option String := none
  customerName : Option String := none
  agentName : Option String := none
  agentId : Option String := none
  sentiment : Option String := none
  status : Option String := none
  aiScore : Option Int := none
  duration : Option Int := none
  createdAt : Option String := none
  messages : Option (List Message) := none

/-- Result of the create handler. -/
structure CreateResult where
  status : Nat
  record : Conversation
  store : List Conversation
deriving Repr, DecidableEq

/-- Models `x || d` on an optional numeric body field (0 is falsy). -/
def jsOrNum (v : Option Int) (d : Int) : Int :=
  match v with
  | some n => if n = 0 then d else n
  | none => d

/-- `req.body.agentId || null`: a present non-empty string is kept, anything
falsy becomes `null`. -/
def jsOrNull (v : Option String) : Option String :=
  match v with
  | some s => if s = "" then none else some s
  | none => none

/-- The `POST /api/conversations` handler. `gid` stands for the random
`generateId()` result and `now` for `new Date().toISOString()`; both are
parameters of the embedding because they are the handler's only effects
besides the store. A `messages` array is an object, hence truthy even when
empty, so `req.body.messages || []` keeps a present empty array. -/
def createConversation (body : CreateBody) (gid now : String)
    (store : List Conversation) : CreateResult :=
  let newConversation : Conversation :=
    { id := gid,
      title := jsOrString body.title "New Conversation",
      customerName := jsOrString body.customerName "Unknown Customer",
      agentName := jsOrString body.agentName "Unassigned",
      agentId := jsOrNull body.agentId,
      sentiment := jsOrString body.sentiment "neutral",
      status := jsOrString body.status "pending",
      aiScore := jsOrNum body.aiScore 50,
      duration := jsOrNum body.duration 0,
      createdAt := now,
      messages := body.messages.getD [] }
  { status := 201, record := newConversation, store := newConversation :: store }

/-! ## PUT /api/conversations/:id -/

/-- The JSON body of an update request: any subset of keys, including `id`
and `createdAt`. -/
structure Patch where
  id : Option String := none
  title : Option String := none
  customerName : Option String := none
  agentName : Option String := none
  agentId : Option (Option String) := none
  sentiment : Option String := none
  status : Option String := none
  aiScore : Option Int := none
  duration : Option Int := none
  createdAt : Option String := none
  messages : Option (List Message) := none

/-- `{ ...conversations[index], ...req.body }`: every key present in the body
overwrites the stored field — the object spread has no protected keys. -/
def mergePatch (c : Conversation) (p : Patch) : Conversation :=
  { id := p.id.getD c.id,
    title := p.title.getD c.title,
    customerName := p.customerName.getD c.customerName,
    agentName := p.agentName.getD c.agentName,
    agentId := p.agentId.getD c.agentId,
    sentiment := p.sentiment.getD c.sentiment,
    status := p.status.getD c.status,
    aiScore := p.aiScore.getD c.aiScore,
    duration := p.duration.getD c.duration,
    createdAt := p.createdAt.getD c.createdAt,
    messages := p.messages.getD c.messages }

/-- The `PUT /api/conversations/:id` handler: `findIndex` on `id`, replace
that record with the spread merge and return it, or 404 (`none`) when the id
is unknown. -/
def updateConversation (i : String) (p : Patch) :
    List Conversation → Option (Conversation × List Conversation)
  | [] => none
  | c :: cs =>
      if c.id == i then some (mergePatch c p, mergePatch c p :: cs)
      else
        match updateConversation i p cs with
        | some (r, cs2) => some (r, c :: cs2)
        | none => none

/-! ## Session registry and auth endpoints -/

/-- A seeded user record. -/
structure User where
  email : String
  password : String
  role : String
  name : String
deriving Repr, DecidableEq

/-- The static `users` table. -/
def users : List User :=
  [ ⟨"admin@crestastream.com", "admin123", "admin", "Admin User"⟩,
    ⟨"agent@crestastream.com", "agent123", "agent", "Test Agent"⟩,
    ⟨"manager@crestastream.com", "manager123", "manager", "Manager User"⟩ ]

/-- The `tokenStore` object: token string → user. Modelled as an association
list with unique keys maintained by `insertToken`. -/
abbrev TokenStore := List (String × User)

/-- Property lookup `tokenStore[t]`. -/
def lookupToken (t : String) : TokenStore → Option User
  | [] => none
  | (k, v) :: rest => if k = t then some v else lookupToken t rest

/-- `delete tokenStore[t]` (a no-op when the key is absent): drops the
binding for key `t`. -/
def eraseToken (t : String) : TokenStore → TokenStore
  | [] => []
  | (k, v) :: rest => if k = t then eraseToken t rest else (k, v) :: eraseToken t rest

/-- `tokenStore[t] = u` (assignment overwrites any previous binding). -/
def insertToken (t : String) (u : User) (s : TokenStore) : TokenStore :=
  (t, u) :: eraseToken t s

/-- `generateToken()` = `'token-' + r` with `r` the random suffix, which the
embedding takes as a parameter. -/
def generateToken (r : String) : String := "token-" ++ r

/-- Common shape of the auth responses. -/
structure AuthResult where
  status : Nat
  success : Bool
  token : Option String
  refreshToken : Option String
  user : Option User
  store : TokenStore

/-- The `POST /api/auth/login` handler: on a credential match, issue
`token = generateToken()` and `refreshToken = 'ref-' + generateToken()`,
record both in the token store, and answer 200; otherwise 401. `r1`, `r2`
are the two random suffixes drawn. -/
def login (email password r1 r2 : String) (s : TokenStore) : AuthResult :=
  match users.find? (fun u => u.email == email && u.password == password) with
  | some u =>
      let token := generateToken r1
      let refreshToken := "ref-" ++ generateToken r2
      { status := 200, success := true, token := some token,
        refreshToken := some refreshToken, user := some u,
        store := insertToken refreshToken u (insertToken token u s) }
  | none =>
      { status := 401, success := false, token := none, refreshToken := none,
        user := none, store := s }

/-- `req.headers.authorization?.replace('Bearer ', '')`. -/
def extractBearer (header : Option String) : Option String :=
  header.map (jsReplaceFirst "Bearer " "")

/-- `incomingRefreshToken || header-token`: the body value wins unless falsy. -/
def refreshTokenToVerify (body header : Option String) : Option String :=
  match body with
  | some b => if b = "" then extractBearer header else some b
  | none => extractBearer header

/-- The `POST /api/auth/refresh` handler: resolve the presented token; if
found, delete that one binding, issue and record a fresh pair for the same
user, answer 200; otherwise 401. -/
def refresh (body header : Option String) (r1 r2 : String) (s : TokenStore) :
    AuthResult :=
  let tokenToVerify := refreshTokenToVerify body header
  match tokenToVerify.bind (fun t => lookupToken t s) with
  | some u =>
      let newToken := generateToken r1
      let newRefreshToken := "ref-" ++ generateToken r2
      let s1 := match tokenToVerify with
                | some t => eraseToken t s
                | none => s
      { status := 200, success := true, token := some newToken,
        refreshToken := some newRefreshToken, user := some u,
        store := insertToken newRefreshToken u (insertToken newToken u s1) }
  | none =>
      { status := 401, success := false, token := none, refreshToken := none,
        user := none, store := s }

/-- Result of the logout handler. -/
structure LogoutResult where
  status : Nat
  success : Bool
  store : TokenStore

/-- The `POST /api/auth/logout` handler: strip the bearer prefix, delete the
binding when the extracted token is truthy, and always answer
`200 {success:true}` — there is no failure branch. -/
def logout (header : Option String) (s : TokenStore) : LogoutResult :=
  let token := extractBearer header
  let s2 := match token with
            | some t => if t = "" then s else eraseToken t s
            | none => s
  { status := 200, success := true, store := s2 }

/-- Written from the specification's words, for comparison with the
handler's `jsSlice`: the slice `[s, e)` of the sequence "clamped to its
bounds" — indices below 0 or beyond the length contribute nothing. -/
def specClampedSlice (s e : Int) (l : List α) : List α :=
  (l.take e.toNat).drop s.toNat

/-- A minimal conversation record used as a concrete test fixture. -/
def demoConv : Conversation :=
  { id := "c-1", title := "T", customerName := "CN", agentName := "AN",
    agentId := none, sentiment := "neutral", status := "pending",
    aiScore := 10, duration := 5, createdAt := "2024-01-01T00:00:00Z",
    messages := [] }

/-- A concrete update body used as a test fixture: it supplies `status` and
the protected-by-the-spec keys `id` and `createdAt`. -/
def demoPatch : Patch :=
  { status := some "done", createdAt := some "2030-01-01T00:00:00Z" }

/-- The seeded admin user, as a named fixture. -/
def demoUser : User :=
  ⟨"admin@crestastream.com", "admin123", "admin", "Admin User"⟩

/-- The listing query `?page=-1&limit=2`, a fixture for the pagination
counterexample. -/
def qNegPage : ListQuery := { page := some "-1", limit := some "2" }

/-! ## Helper lemmas -/

theorem optFilter_nil (po : Option (α → Bool)) : optFilter po [] = [] := by
  cases po <;> simp [optFilter]

theorem optFilter_some (p : α → Bool) (l : List α) :
    optFilter (some p) l = l.filter p := rfl

theorem optFilter_none (l : List α) : optFilter none l = l := rfl

/-- The filter pipeline reads only the six filter parameters of the query. -/
theorem applyFilters_congr (q1 q2 : ListQuery)
    (h1 : q1.sentiment = q2.sentiment) (h2 : q1.status = q2.status)
    (h3 : q1.agentId = q2.agentId) (h4 : q1.search = q2.search)
    (h5 : q1.minScore = q2.minScore) (h6 : q1.maxScore = q2.maxScore)
    (l : List Conversation) : applyFilters q1 l = applyFilters q2 l := by
  simp [applyFilters, h1, h2, h3, h4, h5, h6]

theorem optFilter_sublist (po : Option (α → Bool)) (l : List α) :
    (optFilter po l).Sublist l := by
  cases po with
  | none => exact List.Sublist.refl l
  | some p => exact List.filter_sublist l

theorem optFilter_mono (po : Option (α → Bool)) {l₁ l₂ : List α}
    (h : l₁.Sublist l₂) : (optFilter po l₁).Sublist (optFilter po l₂) := by
  cases po with
  | none => exact h
  | some p => exact h.filter p

theorem mem_optFilter {po : Option (α → Bool)} {l : List α} {a : α}
    (h : a ∈ optFilter po l) : a ∈ l ∧ ∀ p, po = some p → p a = true := by
  cases po with
  | none => exact ⟨h, by simp⟩
  | some p =>
      simp only [optFilter, List.mem_filter] at h
      exact ⟨h.1, fun q hq => by cases hq; exact h.2⟩

/-- `Math.ceil(n / d)` for a positive divisor agrees with the standard
integer ceiling-division formula `(n + d - 1) / d`. -/
theorem jsCeilDiv_eq (n d : Int) (hd : 1 ≤ d) :
    jsCeilDiv n d = (n + d - 1) / d := by
  have hd0 : (0 : Int) < d := by omega
  have h1 : d * (n / d) + n % d = n := Int.ediv_add_emod n d
  have h2 : 0 ≤ n % d := Int.emod_nonneg n (by omega)
  have h3 : n % d < d := Int.emod_lt_of_pos n hd0
  unfold jsCeilDiv
  rw [Int.fdiv_eq_ediv _ (by omega : (0 : Int) ≤ d)]
  by_cases hr : n % d = 0
  · have hneg : (-n) / d = -(n / d) := by
      refine ((@Int.ediv_emod_unique (-n) d 0 (-(n / d)) hd0).2
        ⟨?_, le_refl 0, hd0⟩).1
      have : d * -(n / d) = -(d * (n / d)) := by ring
      rw [this]; omega
    have hpos : (n + d - 1) / d = n / d := by
      refine ((@Int.ediv_emod_unique (n + d - 1) d (d - 1) (n / d) hd0).2
        ⟨?_, by omega, by omega⟩).1
      omega
    rw [hneg, hpos]; omega
  · have hneg : (-n) / d = -(n / d + 1) := by
      refine ((@Int.ediv_emod_unique (-n) d (d - n % d) (-(n / d + 1)) hd0).2
        ⟨?_, by omega, by omega⟩).1
      have : d * -(n / d + 1) = -(d * (n / d)) - d := by ring
      rw [this]; omega
    have hpos : (n + d - 1) / d = n / d + 1 := by
      refine ((@Int.ediv_emod_unique (n + d - 1) d (n % d - 1) (n / d + 1) hd0).2
        ⟨?_, by omega, by omega⟩).1
      have : d * (n / d + 1) = d * (n / d) + d := by ring
      rw [this]; omega
    rw [hneg, hpos]; omega

/-- For nonnegative boundaries, the JavaScript slice is exactly the
clamped slice the specification describes. -/
theorem jsSlice_nonneg (s e : Int) (hs : 0 ≤ s) (he : 0 ≤ e) (l : List α) :
    jsSlice s e l = specClampedSlice s e l := by
  unfold jsSlice specClampedSlice
  dsimp only
  rw [if_neg (by omega : ¬ s < 0), if_neg (by omega : ¬ e < 0)]
  rcases le_or_lt (l.length : Int) s with hls | hls
  · have h1 : (min s (l.length : Int)).toNat = l.length := by omega
    rw [h1, List.drop_length, List.take_nil]
    exact (List.drop_eq_nil_of_le (by simp only [List.length_take]; omega)).symm
  · have h1 : (min s (l.length : Int)).toNat = s.toNat := by omega
    rcases le_or_lt s e with hse | hse
    · rcases le_or_lt e (l.length : Int) with hel | hel
      · have h2 : (min e (l.length : Int) - min s (l.length : Int)).toNat
            = e.toNat - s.toNat := by omega
        have h3 : s.toNat + (e.toNat - s.toNat) = e.toNat := by omega
        rw [h1, h2, List.take_drop, h3]
      · have h2 : (min e (l.length : Int) - min s (l.length : Int)).toNat
            = l.length - s.toNat := by omega
        rw [h1, h2, List.take_of_length_le (by simp only [List.length_drop]; omega),
          List.take_of_length_le (by omega : l.length ≤ e.toNat)]
    · have h2 : (min e (l.length : Int) - min s (l.length : Int)).toNat = 0 := by
        omega
      rw [h2, List.take_zero]
      exact (List.drop_eq_nil_of_le (by simp only [List.length_take]; omega)).symm

theorem lookupToken_insert_self (t : String) (u : User) (s : TokenStore) :
    lookupToken t (insertToken t u s) = some u := by
  simp [insertToken, lookupToken]

theorem lookupToken_erase_self (t : String) (s : TokenStore) :
    lookupToken t (eraseToken t s) = none := by
  induction s with
  | nil => rfl
  | cons kv rest ih =>
      obtain ⟨k1, v1⟩ := kv
      by_cases hk : k1 = t <;> simp [eraseToken, lookupToken, hk, ih]

theorem lookupToken_erase_ne (k t : String) (h : k ≠ t) (s : TokenStore) :
    lookupToken k (eraseToken t s) = lookupToken k s := by
  induction s with
  | nil => rfl
  | cons kv rest ih =>
      obtain ⟨k1, v1⟩ := kv
      by_cases hk : k1 = t
      · have hne : ¬ k1 = k := by rw [hk]; exact fun hc => h hc.symm
        simp [eraseToken, lookupToken, hk, hne, ih, Ne.symm h]
      · by_cases hkk : k1 = k <;> simp [eraseToken, lookupToken, hk, hkk, ih, h]

theorem lookupToken_insert_ne (k t : String) (h : k ≠ t) (u : User)
    (s : TokenStore) :
    lookupToken k (insertToken t u s) = lookupToken k s := by
  have ht : t ≠ k := fun hc => h hc.symm
  simp [insertToken, lookupToken, ht, lookupToken_erase_ne k t h s]

theorem eraseToken_of_lookup_none (t : String) (s : TokenStore)
    (h : lookupToken t s = none) : eraseToken t s = s := by
  induction s with
  | nil => rfl
  | cons kv rest ih =>
      obtain ⟨k1, v1⟩ := kv
      simp only [lookupToken] at h
      by_cases hk : k1 = t
      · simp [hk] at h
      · simp only [hk, if_false] at h
        simp [eraseToken, hk, ih h]

/-- A freshly generated refresh token (`"ref-token-" ++ r2`) is never equal
to a freshly generated access token (`"token-" ++ r1`): their first
characters differ. -/
theorem ref_ne_token (r1 r2 : String) :
    "ref-" ++ generateToken r2 ≠ generateToken r1 := by
  intro h
  have h2 := congrArg String.data h
  simp only [generateToken, String.data_append] at h2
  have h3 := congrArg (fun l => l.head?) h2
  simp at h3

theorem jsSlice_nil (s e : Int) : jsSlice s e ([] : List α) = [] := by
  simp [jsSlice]

/-- A found update target is merged with the body by the object spread. -/
theorem updateConversation_eq_merge (i : String) (p : Patch) :
    ∀ (store : List Conversation) (r : Conversation) (rest : List Conversation)
      (c : Conversation),
      updateConversation i p store = some (r, rest) →
      store.find? (fun x => x.id == i) = some c →
      r = mergePatch c p := by
  intro store
  induction store with
  | nil => intro r rest c hu _; simp [updateConversation] at hu
  | cons c1 cs ih =>
      intro r rest c hu hf
      by_cases h1 : (c1.id == i) = true
      · simp only [updateConversation, h1, if_true, Option.some.injEq,
          Prod.mk.injEq] at hu
        simp only [List.find?, h1, Option.some.injEq] at hf
        rw [← hu.1, ← hf]
      · simp only [updateConversation, h1, if_false] at hu
        simp only [List.find?, h1] at hf
        cases hrec : updateConversation i p cs with
        | none => rw [hrec] at hu; simp at hu
        | some pr =>
            obtain ⟨r2, cs2⟩ := pr
            rw [hrec] at hu
            simp only [Bool.false_eq_true, if_false, Option.some.injEq,
              Prod.mk.injEq] at hu
            rw [← hu.1]
            exact ih r2 cs2 c hrec hf

/-! ## Claims -/

/-- C1, counterexample: on the empty store the metrics computation does not
produce 0 for `averageAiScore` or `resolutionRate`; all three averaged fields
are the NaN of `Math.round(0/0)` (modelled `none`, serialized `null`). -/
theorem metrics_empty_not_zero_cx :
    (calculateMetrics []).averageAiScore ≠ some 0 ∧
    (calculateMetrics []).resolutionRate ≠ some 0 ∧
    (calculateMetrics []).averageHandleTime = none := by decide

/-- C1, amended: on the empty store the metrics computation does not raise an
error — the counts are 0 — but the three derived averages are NaN (no defined
numeric value), not 0: there is no division-by-zero guard. -/
theorem metrics_empty_nan :
    calculateMetrics [] =
      { totalConversations := 0, positiveCount := 0, negativeCount := 0,
        neutralCount := 0, averageAiScore := none, resolutionRate := none,
        averageHandleTime := none } := by decide

/-- C2, counterexample: updating `conv-001` with a body that supplies `id`
(and `createdAt`) overwrites those fields — the object spread protects
nothing, contradicting the claim that `id` and `createdAt` cannot be
overwritten. -/
theorem update_overwrites_id_cx :
    ((updateConversation "conv-001" { id := some "evil" }
        initialConversations).map (fun x => x.1.id)) = some "evil" ∧
    ("evil" : String) ≠ "conv-001" ∧
    ((updateConversation "conv-001" { createdAt := some "1999-01-01T00:00:00Z" }
        initialConversations).map (fun x => x.1.createdAt)) =
      some "1999-01-01T00:00:00Z" := by decide

/-- C2, amended: the update handler shallow-merges the body onto the found
record: every key present in the body overwrites the stored field — including
`id` and `createdAt`, which are not protected — and every key absent from the
body leaves its field untouched. -/
theorem update_shallow_merge (i : String) (p : Patch)
    (store : List Conversation) (r : Conversation) (rest : List Conversation)
    (c : Conversation)
    (hu : updateConversation i p store = some (r, rest))
    (hf : store.find? (fun x => x.id == i) = some c) :
    (p.id = none → r.id = c.id) ∧
    (∀ v, p.id = some v → r.id = v) ∧
    (p.createdAt = none → r.createdAt = c.createdAt) ∧
    (∀ v, p.createdAt = some v → r.createdAt = v) ∧
    (p.title = none → r.title = c.title) ∧
    (∀ v, p.title = some v → r.title = v) ∧
    (p.customerName = none → r.customerName = c.customerName) ∧
    (∀ v, p.customerName = some v → r.customerName = v) ∧
    (p.agentName = none → r.agentName = c.agentName) ∧
    (∀ v, p.agentName = some v → r.agentName = v) ∧
    (p.agentId = none → r.agentId = c.agentId) ∧
    (∀ v, p.agentId = some v → r.agentId = v) ∧
    (p.sentiment = none → r.sentiment = c.sentiment) ∧
    (∀ v, p.sentiment = some v → r.sentiment = v) ∧
    (p.status = none → r.status = c.status) ∧
    (∀ v, p.status = some v → r.status = v) ∧
    (p.aiScore = none → r.aiScore = c.aiScore) ∧
    (∀ v, p.aiScore = some v → r.aiScore = v) ∧
    (p.duration = none → r.duration = c.duration) ∧
    (∀ v, p.duration = some v → r.duration = v) ∧
    (p.messages = none → r.messages = c.messages) ∧
    (∀ v, p.messages = some v → r.messages = v) := by
  have hm := updateConversation_eq_merge i p store r rest c hu hf
  subst hm
  refine ⟨?_, ?_, ?_, ?_, ?_, ?_, ?_, ?_, ?_, ?_, ?_, ?_, ?_, ?_, ?_, ?_,
    ?_, ?_, ?_, ?_, ?_, ?_⟩ <;>
    first
      | (intro h; simp [mergePatch, h])
      | (intro v h; simp [mergePatch, h])

/-- C2, witness for the amended theorem at a concrete store and body. -/
theorem update_shallow_merge_witness :
    (mergePatch demoConv demoPatch).id = demoConv.id ∧
    (mergePatch demoConv demoPatch).status = "done" ∧
    (mergePatch demoConv demoPatch).createdAt = "2030-01-01T00:00:00Z" := by
  have h := update_shallow_merge "c-1" demoPatch [demoConv]
    (mergePatch demoConv demoPatch) [mergePatch demoConv demoPatch] demoConv
    (by decide) (by decide)
  exact ⟨h.1 rfl, h.2.2.2.2.2.2.2.2.2.2.2.2.2.2.2.1 "done" rfl,
    h.2.2.2.1 "2030-01-01T00:00:00Z" rfl⟩

/-- C3, counterexample: an unparseable `minScore` is not treated as absent —
the listing with `minScore=abc` returns no records while the same request
without the parameter returns all five. -/
theorem minScore_nan_not_skipped_cx :
    listConversations { minScore := some "abc" } initialConversations ≠
      listConversations {} initialConversations ∧
    (listConversations { minScore := some "abc" } initialConversations).data
      = [] ∧
    (listConversations {} initialConversations).data.length = 5 := by decide

/-- C3, amended: an unparseable `page` or `limit` is indeed treated as absent
(the `parseInt(x) || default` coercion defaults on NaN), but an unparseable
non-empty `minScore` or `maxScore` keeps its filter, whose `aiScore`-to-NaN
comparison is false for every record: the result is empty, not the unfiltered
result — though no error is returned. -/
theorem nonparse_numeric_params (q : ListQuery) (store : List Conversation)
    (sv : String) (hp : jsParseInt sv = none) :
    (listConversations { q with page := some sv } store =
      listConversations { q with page := none } store) ∧
    (listConversations { q with limit := some sv } store =
      listConversations { q with limit := none } store) ∧
    (sv ≠ "" → applyFilters { q with minScore := some sv } store = []) ∧
    (sv ≠ "" →
      (listConversations { q with minScore := some sv } store).data = []) ∧
    (sv ≠ "" → applyFilters { q with maxScore := some sv } store = []) ∧
    (sv ≠ "" →
      (listConversations { q with maxScore := some sv } store).data = []) := by
  have hmin : ∀ h : sv ≠ "", applyFilters { q with minScore := some sv } store = [] := by
    intro h
    simp [applyFilters, minScorePredOf, h, hp, optFilter_some, optFilter_nil,
      List.filter_false]
  have hmax : ∀ h : sv ≠ "", applyFilters { q with maxScore := some sv } store = [] := by
    intro h
    simp [applyFilters, maxScorePredOf, h, hp, optFilter_some, optFilter_nil,
      List.filter_false]
  refine ⟨?_, ?_, hmin, ?_, hmax, ?_⟩
  · have hAF : applyFilters { q with page := some sv } store =
        applyFilters { q with page := none } store :=
      applyFilters_congr _ _ rfl rfl rfl rfl rfl rfl store
    simp [listConversations, pageOf, limitOf, hp, hAF]
  · have hAF : applyFilters { q with limit := some sv } store =
        applyFilters { q with limit := none } store :=
      applyFilters_congr _ _ rfl rfl rfl rfl rfl rfl store
    simp [listConversations, pageOf, limitOf, hp, hAF]
  · intro h
    simp [listConversations, hmin h, jsSlice_nil]
  · intro h
    simp [listConversations, hmax h, jsSlice_nil]

/-- C3, witness for the amended theorem at the seeded store and the
unparseable value `abc`. -/
theorem nonparse_numeric_params_witness :
    listConversations { page := some "abc" } initialConversations =
      listConversations {} initialConversations ∧
    (listConversations { minScore := some "abc" } initialConversations).data
      = [] := by
  have h := nonparse_numeric_params {} initialConversations "abc" (by decide)
  exact ⟨h.1, h.2.2.2.1 (by decide)⟩

/-- C4, counterexample: after a login issued the pair
(`token-a`, `ref-token-b`), a successful rotation presenting the refresh
token leaves the old access token `token-a` still resolving — the rotation
does not remove both tokens of the pair. -/
theorem rotate_keeps_other_token_cx :
    (refresh (some "ref-token-b") none "c" "d"
      (login "admin@crestastream.com" "admin123" "a" "b" []).store).success
      = true ∧
    lookupToken "token-a"
      (refresh (some "ref-token-b") none "c" "d"
        (login "admin@crestastream.com" "admin123" "a" "b" []).store).store
      ≠ none := by decide

/-- C4, amended: a successful rotation removes only the presented token from
the registry (assuming the freshly generated tokens differ from it) and
issues two fresh tokens bound to the same identity; every other binding —
including the other token of the pre-rotation pair — is left untouched. -/
theorem rotate_removes_presented_only (tv r1 r2 : String) (s : TokenStore)
    (u : User) (hne : tv ≠ "") (hl : lookupToken tv s = some u)
    (hf1 : tv ≠ generateToken r1) (hf2 : tv ≠ "ref-" ++ generateToken r2) :
    (refresh (some tv) none r1 r2 s).status = 200 ∧
    (refresh (some tv) none r1 r2 s).success = true ∧
    (refresh (some tv) none r1 r2 s).token = some (generateToken r1) ∧
    (refresh (some tv) none r1 r2 s).refreshToken
      = some ("ref-" ++ generateToken r2) ∧
    (refresh (some tv) none r1 r2 s).user = some u ∧
    lookupToken tv (refresh (some tv) none r1 r2 s).store = none ∧
    lookupToken (generateToken r1) (refresh (some tv) none r1 r2 s).store
      = some u ∧
    lookupToken ("ref-" ++ generateToken r2)
      (refresh (some tv) none r1 r2 s).store = some u ∧
    (∀ other, other ≠ tv → other ≠ generateToken r1 →
      other ≠ "ref-" ++ generateToken r2 →
      lookupToken other (refresh (some tv) none r1 r2 s).store
        = lookupToken other s) := by
  have hstore : (refresh (some tv) none r1 r2 s).store =
      insertToken ("ref-" ++ generateToken r2) u
        (insertToken (generateToken r1) u (eraseToken tv s)) := by
    simp [refresh, refreshTokenToVerify, hne, hl]
  refine ⟨?_, ?_, ?_, ?_, ?_, ?_, ?_, ?_, ?_⟩
  · simp [refresh, refreshTokenToVerify, hne, hl]
  · simp [refresh, refreshTokenToVerify, hne, hl]
  · simp [refresh, refreshTokenToVerify, hne, hl]
  · simp [refresh, refreshTokenToVerify, hne, hl]
  · simp [refresh, refreshTokenToVerify, hne, hl]
  · rw [hstore, lookupToken_insert_ne tv _ hf2, lookupToken_insert_ne tv _ hf1]
    exact lookupToken_erase_self tv s
  · rw [hstore,
      lookupToken_insert_ne _ _ (fun h => ref_ne_token r1 r2 h.symm)]
    exact lookupToken_insert_self _ u _
  · rw [hstore]
    exact lookupToken_insert_self _ u _
  · intro other ho hn1 hn2
    rw [hstore, lookupToken_insert_ne _ _ hn2, lookupToken_insert_ne _ _ hn1]
    exact lookupToken_erase_ne other tv ho s

/-- C4, witness for the amended theorem: rotating the only binding of a
one-entry registry removes it. -/
theorem rotate_removes_presented_only_witness :
    lookupToken "old"
      (refresh (some "old") none "x" "y" [("old", demoUser)]).store = none :=
  (rotate_removes_presented_only "old" "x" "y" [("old", demoUser)] demoUser
    (by decide) (by decide) (by decide) (by decide)).2.2.2.2.2.1

/-- C5, counterexample: `?page=-1&limit=2` on the seeded store — the page is
not coerced to a positive integer, and the resulting negative slice indices
count from the end of the filtered sequence, returning two records where the
claimed clamped slice is empty. -/
theorem negative_page_cx :
    pageOf qNegPage < 1 ∧
    (listConversations qNegPage initialConversations).data ≠
      specClampedSlice ((pageOf qNegPage - 1) * limitOf qNegPage)
        ((pageOf qNegPage - 1) * limitOf qNegPage + limitOf qNegPage)
        (applyFilters qNegPage initialConversations) ∧
    (listConversations qNegPage initialConversations).data
      = [conv002, conv003] := by decide

/-- C5, amended: `page` defaults to 1 and `limit` to 10 when absent (also
when falsy or unparseable), but neither is coerced to positive. For positive
coerced values the returned slice is `[(page-1)*limit, (page-1)*limit+limit)`
of the filtered sequence clamped to its bounds, and an out-of-range page
yields an empty slice rather than an error; a negative value instead reaches
the JavaScript slice, whose negative indices count from the end. -/
theorem pagination_defaults_and_clamped_slice (q : ListQuery)
    (store : List Conversation) :
    (q.page = none → pageOf q = 1) ∧
    (q.limit = none → limitOf q = 10) ∧
    (1 ≤ pageOf q → 1 ≤ limitOf q →
      (listConversations q store).data =
        specClampedSlice ((pageOf q - 1) * limitOf q)
          ((pageOf q - 1) * limitOf q + limitOf q) (applyFilters q store)) ∧
    (1 ≤ pageOf q → 1 ≤ limitOf q →
      ((applyFilters q store).length : Int) ≤ (pageOf q - 1) * limitOf q →
      (listConversations q store).data = []) := by
  have hslice : 1 ≤ pageOf q → 1 ≤ limitOf q →
      (listConversations q store).data =
        specClampedSlice ((pageOf q - 1) * limitOf q)
          ((pageOf q - 1) * limitOf q + limitOf q) (applyFilters q store) := by
    intro hpg hlm
    have hs0 : 0 ≤ (pageOf q - 1) * limitOf q :=
      mul_nonneg (by omega) (by omega)
    exact jsSlice_nonneg _ _ hs0 (by omega) _
  refine ⟨?_, ?_, hslice, ?_⟩
  · intro h; simp [pageOf, h, jsOrInt]
  · intro h; simp [limitOf, h, jsOrInt]
  · intro hpg hlm hout
    rw [hslice hpg hlm]
    unfold specClampedSlice
    apply List.drop_eq_nil_of_le
    simp only [List.length_take]
    omega

/-- C5, witness for the amended theorem: an out-of-range page on the seeded
store yields an empty page. -/
theorem pagination_defaults_witness :
    (listConversations { page := some "99" } initialConversations).data
      = [] :=
  (pagination_defaults_and_clamped_slice { page := some "99" }
    initialConversations).2.2.2 (by decide) (by decide) (by decide)

/-- C6: for positive coerced `page` and `limit`, the returned page holds at
most `limit` records, `pagination.total` is the pre-pagination filtered
count, and `pagination.totalPages` is the ceiling of `total / limit`
(written with the integer ceiling-division formula). -/
theorem listing_pagination_bounds (q : ListQuery) (store : List Conversation)
    (hpg : 1 ≤ pageOf q) (hlm : 1 ≤ limitOf q) :
    ((listConversations q store).data.length : Int) ≤ limitOf q ∧
    (listConversations q store).pagination.total
      = (applyFilters q store).length ∧
    (listConversations q store).pagination.totalPages =
      (((applyFilters q store).length : Int) + limitOf q - 1) / limitOf q := by
  have hs0 : 0 ≤ (pageOf q - 1) * limitOf q :=
    mul_nonneg (by omega) (by omega)
  refine ⟨?_, rfl, ?_⟩
  · have hdata : (listConversations q store).data =
        specClampedSlice ((pageOf q - 1) * limitOf q)
          ((pageOf q - 1) * limitOf q + limitOf q) (applyFilters q store) :=
      jsSlice_nonneg _ _ hs0 (by omega) _
    rw [hdata]
    unfold specClampedSlice
    simp only [List.length_drop, List.length_take]
    generalize (pageOf q - 1) * limitOf q = S at hs0 ⊢
    omega
  · show jsCeilDiv ((applyFilters q store).length : Int) (limitOf q) = _
    exact jsCeilDiv_eq _ _ hlm

/-- C6, witness: the spec's own scenario — `page=1&limit=2` on the 5-record
store gives at most 2 records, total 5 and 3 total pages. -/
theorem listing_pagination_bounds_witness :
    (((listConversations { page := some "1", limit := some "2" }
        initialConversations).data.length : Int) ≤
      limitOf { page := some "1", limit := some "2" }) ∧
    (listConversations { page := some "1", limit := some "2" }
        initialConversations).pagination.total
      = (applyFilters { page := some "1", limit := some "2" }
          initialConversations).length ∧
    (listConversations { page := some "1", limit := some "2" }
        initialConversations).pagination.totalPages =
      (((applyFilters { page := some "1", limit := some "2" }
          initialConversations).length : Int) +
        limitOf { page := some "1", limit := some "2" } - 1) /
        limitOf { page := some "1", limit := some "2" } :=
  listing_pagination_bounds { page := some "1", limit := some "2" }
    initialConversations (by decide) (by decide)

/-- C7: the create handler answers 201, always server-generates `id` and
`createdAt` regardless of the request body, prepends the new record to the
store, and applies the documented default for every absent field. -/
theorem create_defaults (body : CreateBody) (gid now : String)
    (store : List Conversation) :
    (createConversation body gid now store).status = 201 ∧
    (createConversation body gid now store).record.id = gid ∧
    (createConversation body gid now store).record.createdAt = now ∧
    (createConversation body gid now store).store =
      (createConversation body gid now store).record :: store ∧
    (body.title = none →
      (createConversation body gid now store).record.title
        = "New Conversation") ∧
    (body.customerName = none →
      (createConversation body gid now store).record.customerName
        = "Unknown Customer") ∧
    (body.agentName = none →
      (createConversation body gid now store).record.agentName
        = "Unassigned") ∧
    (body.agentId = none →
      (createConversation body gid now store).record.agentId = none) ∧
    (body.sentiment = none →
      (createConversation body gid now store).record.sentiment = "neutral") ∧
    (body.status = none →
      (createConversation body gid now store).record.status = "pending") ∧
    (body.aiScore = none →
      (createConversation body gid now store).record.aiScore = 50) ∧
    (body.duration = none →
      (createConversation body gid now store).record.duration = 0) ∧
    (body.messages = none →
      (createConversation body gid now store).record.messages = []) := by
  refine ⟨rfl, rfl, rfl, rfl, ?_, ?_, ?_, ?_, ?_, ?_, ?_, ?_, ?_⟩ <;>
    (intro h; simp [createConversation, jsOrString, jsOrNull, jsOrNum, h])

/-- C7, witness: the spec's own scenario — an empty create body yields 201
with sentiment `neutral`, status `pending` and aiScore 50. -/
theorem create_defaults_witness :
    (createConversation {} "conv-new" "2024-02-01T00:00:00Z" []).status
      = 201 ∧
    (createConversation {} "conv-new" "2024-02-01T00:00:00Z" []).record.sentiment
      = "neutral" ∧
    (createConversation {} "conv-new" "2024-02-01T00:00:00Z" []).record.status
      = "pending" ∧
    (createConversation {} "conv-new" "2024-02-01T00:00:00Z" []).record.aiScore
      = 50 := by
  have h := create_defaults {} "conv-new" "2024-02-01T00:00:00Z" []
  exact ⟨h.1, h.2.2.2.2.2.2.2.2.1 rfl, h.2.2.2.2.2.2.2.2.2.1 rfl,
    h.2.2.2.2.2.2.2.2.2.2.1 rfl⟩

/-- C8: filtering is conjunctive — a record survives the pipeline only if it
is in the store and satisfies the predicate of every filter stage whose guard
fired — and dropping any one filter parameter never shrinks the result: the
filtered list is a sublist of the list obtained without that parameter. -/
theorem filters_conjunctive_and_monotone (q : ListQuery)
    (l : List Conversation) :
    (∀ c, c ∈ applyFilters q l →
      c ∈ l ∧
      (∀ p, sentimentPredOf q.sentiment = some p → p c = true) ∧
      (∀ p, statusPredOf q.status = some p → p c = true) ∧
      (∀ p, agentIdPredOf q.agentId = some p → p c = true) ∧
      (∀ p, searchPredOf q.search = some p → p c = true) ∧
      (∀ p, minScorePredOf q.minScore = some p → p c = true) ∧
      (∀ p, maxScorePredOf q.maxScore = some p → p c = true)) ∧
    (applyFilters q l).Sublist (applyFilters { q with sentiment := none } l) ∧
    (applyFilters q l).Sublist (applyFilters { q with status := none } l) ∧
    (applyFilters q l).Sublist (applyFilters { q with agentId := none } l) ∧
    (applyFilters q l).Sublist (applyFilters { q with search := none } l) ∧
    (applyFilters q l).Sublist (applyFilters { q with minScore := none } l) ∧
    (applyFilters q l).Sublist (applyFilters { q with maxScore := none } l) := by
  refine ⟨?_, ?_, ?_, ?_, ?_, ?_, ?_⟩
  · intro c hc
    obtain ⟨hc, hmax⟩ := mem_optFilter hc
    obtain ⟨hc, hmin⟩ := mem_optFilter hc
    obtain ⟨hc, hsearch⟩ := mem_optFilter hc
    obtain ⟨hc, hagent⟩ := mem_optFilter hc
    obtain ⟨hc, hstatus⟩ := mem_optFilter hc
    obtain ⟨hc, hsent⟩ := mem_optFilter hc
    exact ⟨hc, hsent, hstatus, hagent, hsearch, hmin, hmax⟩
  · exact optFilter_mono _ (optFilter_mono _ (optFilter_mono _
      (optFilter_mono _ (optFilter_mono _ (optFilter_sublist _ l)))))
  · exact optFilter_mono _ (optFilter_mono _ (optFilter_mono _
      (optFilter_mono _ (optFilter_sublist _ _))))
  · exact optFilter_mono _ (optFilter_mono _ (optFilter_mono _
      (optFilter_sublist _ _)))
  · exact optFilter_mono _ (optFilter_mono _ (optFilter_sublist _ _))
  · exact optFilter_mono _ (optFilter_sublist _ _)
  · exact optFilter_sublist _ _

/-- C8, witness: `sentiment=positive&status=completed` on the seeded store —
the surviving record `conv002` is in the store and matches both filters. -/
theorem filters_conjunctive_witness :
    conv002 ∈ initialConversations ∧
    (conv002.sentiment == "positive") = true ∧
    (conv002.status == "completed") = true := by
  have h := (filters_conjunctive_and_monotone
    { sentiment := some "positive", status := some "completed" }
    initialConversations).1 conv002 (by decide)
  exact ⟨h.1, h.2.1 _ rfl, h.2.2.1 _ rfl⟩

/-- C9: defaulting on create is by JavaScript falsiness, not only absence —
a present `aiScore: 0`, empty `title` or empty `customerName` is replaced by
the documented default. -/
theorem create_falsy_defaults (body : CreateBody) (gid now : String)
    (store : List Conversation) :
    (body.aiScore = some 0 →
      (createConversation body gid now store).record.aiScore = 50) ∧
    (body.title = some "" →
      (createConversation body gid now store).record.title
        = "New Conversation") ∧
    (body.customerName = some "" →
      (createConversation body gid now store).record.customerName
        = "Unknown Customer") := by
  refine ⟨?_, ?_, ?_⟩ <;>
    (intro h; simp [createConversation, jsOrString, jsOrNum, h])

/-- C9, witness at a concrete body supplying the three falsy values. -/
theorem create_falsy_defaults_witness :
    (createConversation
        { aiScore := some 0, title := some "", customerName := some "" }
        "conv-new" "2024-02-01T00:00:00Z" []).record.aiScore = 50 ∧
    (createConversation
        { aiScore := some 0, title := some "", customerName := some "" }
        "conv-new" "2024-02-01T00:00:00Z" []).record.title
      = "New Conversation" ∧
    (createConversation
        { aiScore := some 0, title := some "", customerName := some "" }
        "conv-new" "2024-02-01T00:00:00Z" []).record.customerName
      = "Unknown Customer" := by
  have h := create_falsy_defaults
    { aiScore := some 0, title := some "", customerName := some "" }
    "conv-new" "2024-02-01T00:00:00Z" []
  exact ⟨h.1 rfl, h.2.1 rfl, h.2.2 rfl⟩

/-- C10: logout always answers `200 {success:true}` — with no Authorization
header it is a pure no-op; with a bearer token it removes that binding when
present and is a no-op when the token is unknown; no branch returns 401. -/
theorem logout_never_fails (header : Option String) (s : TokenStore) :
    (logout header s).status = 200 ∧
    (logout header s).success = true ∧
    (∀ t, extractBearer header = some t → t ≠ "" →
      (logout header s).store = eraseToken t s ∧
      lookupToken t (logout header s).store = none) ∧
    (extractBearer header = none → (logout header s).store = s) ∧
    (∀ t, extractBearer header = some t → lookupToken t s = none →
      (logout header s).store = s) := by
  refine ⟨rfl, rfl, ?_, ?_, ?_⟩
  · intro t ht hne
    have hs : (logout header s).store = eraseToken t s := by
      simp [logout, ht, hne]
    exact ⟨hs, by rw [hs]; exact lookupToken_erase_self t s⟩
  · intro h; simp [logout, h]
  · intro t ht hnone
    by_cases hz : t = ""
    · simp [logout, ht, hz]
    · simp [logout, ht, hz, eraseToken_of_lookup_none t s hnone]

/-- C10, witness: logging out a bound bearer token removes exactly that
binding and still reports success. -/
theorem logout_never_fails_witness :
    (logout (some "Bearer abc") [("abc", demoUser)]).store
      = eraseToken "abc" [("abc", demoUser)] ∧
    lookupToken "abc" (logout (some "Bearer abc") [("abc", demoUser)]).store
      = none :=
  (logout_never_fails (some "Bearer abc") [("abc", demoUser)]).2.2.1 "abc"
    (by decide) (by decide)

end CrestaStream
